import Mathlib

/-!
Verification development for the LogicWeaver backend.

Shallow embedding of `backend/app/services/status.py` (workflow status
lifecycle) and `backend/app/services/protocol.py` (protocol projection),
with theorems settling the specification claims about those services.

Python conventions modelled explicitly:
* nullable columns are `Option`;
* Python truthiness of an optional string / list (`if x:`) is
  `pyTruthyStr` / `pyTruthyList` (`None` and the empty value are falsy);
* `dict.get(k, d)` of the literal dictionaries is folded into total
  functions returning the default, `dict.get(k)` into `Option`-valued ones;
* database-session plumbing (the workflow lookup returning `None` when the
  id is unknown) is dropped: every claim quantifies over a workflow that
  exists, so the embedding takes the `Workflow` record directly and returns
  the post-state together with the response payload.
-/

namespace LogicWeaver

/-- Python truthiness of an optional string: `None` and `""` are falsy. -/
def pyTruthyStr : Option String → Bool
  | none => false
  | some s => !s.isEmpty

/-- Python truthiness of an optional list: `None` and `[]` are falsy. -/
def pyTruthyList : Option (List String) → Bool
  | none => false
  | some l => !l.isEmpty

/-- Python `x or d` for an optional string `x`: returns `d` when `x` is falsy. -/
def pyOrStr (o : Option String) (d : String) : String :=
  match o with
  | none => d
  | some s => if s.isEmpty then d else s

/-- Python `str(x)` for an `Optional[str]`: `None` prints as `"None"`
(used by the f-string in `transition_workflow_status`). -/
def pyStrOpt (o : Option String) : String :=
  match o with
  | none => "None"
  | some s => s

/-- Python slicing `s[:n]`: the first `n` characters, modelled on the
character list. -/
def pyTake (s : String) (n : Nat) : String :=
  String.mk (s.data.take n)

/-- Python `s.upper()`, modelled character-wise (the values involved are
ASCII). -/
def pyUpper (s : String) : String :=
  String.mk (s.data.map Char.toUpper)

/-- Python `s.strip()`: drop leading and trailing whitespace, modelled on
the character list (the values involved use ASCII whitespace). -/
def pyStrip (s : String) : String :=
  String.mk
    (((s.data.dropWhile Char.isWhitespace).reverse.dropWhile
      Char.isWhitespace).reverse)

namespace Status

/-- The workflow row as far as the status service reads it: the mutable
`status` column of `Workflow` (`backend/app/models/workflow.py`). -/
structure Workflow where
  status : String
  deriving DecidableEq

/-- The six lifecycle values, from the `ck_workflow_status` check constraint
of the `workflows` table and the flow comment in `status.py`. -/
def lifecycle_states : List String :=
  ["draft", "worker_done", "expert_done", "analyzed", "confirmed", "delivered"]

/-- The `VALID_TRANSITIONS` dictionary of `status.py` with the
`.get(status, [])` default folded in (all three use sites pass that default). -/
def VALID_TRANSITIONS (s : String) : List String :=
  if s = "draft" then ["worker_done"]
  else if s = "worker_done" then ["draft", "expert_done"]
  else if s = "expert_done" then ["worker_done", "analyzed"]
  else if s = "analyzed" then ["expert_done", "confirmed"]
  else if s = "confirmed" then ["analyzed", "delivered"]
  else if s = "delivered" then ["confirmed"]
  else []

/-- The `STATUS_LABELS` dictionary of `status.py` as `dict.get` (no default). -/
def STATUS_LABELS (s : String) : Option String :=
  if s = "draft" then some "草稿"
  else if s = "worker_done" then some "待专家整理"
  else if s = "expert_done" then some "待AI分析"
  else if s = "analyzed" then some "待复核"
  else if s = "confirmed" then some "已确认"
  else if s = "delivered" then some "已交付"
  else none

/-- The `STATUS_COLORS` dictionary of `status.py` as `dict.get` (no default). -/
def STATUS_COLORS (s : String) : Option String :=
  if s = "draft" then some "slate"
  else if s = "worker_done" then some "amber"
  else if s = "expert_done" then some "blue"
  else if s = "analyzed" then some "purple"
  else if s = "confirmed" then some "emerald"
  else if s = "delivered" then some "green"
  else none

/-- `STATUS_LABELS.get(s, s)` as used in the success payloads. -/
def labelD (s : String) : String := (STATUS_LABELS s).getD s

/-- `STATUS_COLORS.get(s, "slate")` as used in the success payloads. -/
def colorD (s : String) : String := (STATUS_COLORS s).getD "slate"

/-- The response dictionary of `transition_workflow_status`: either the
failure payload (`success: False`, `error`, `allowed_transitions`) or the
success payload (`success: True`, `status`, `label`, `color`,
`allowed_transitions`). -/
inductive TransitionResult where
  | failure (error : String) (allowed_transitions : List String)
  | success (status : String) (label : String) (color : String)
      (allowed_transitions : List String)
  deriving DecidableEq

/-- The `success` boolean of the response dictionary. -/
def TransitionResult.isSuccess : TransitionResult → Bool
  | .failure _ _ => false
  | .success _ _ _ _ => true

/-- The `allowed_transitions` entry of the response dictionary. -/
def TransitionResult.allowed : TransitionResult → List String
  | .failure _ a => a
  | .success _ _ _ a => a

/-- Embeds `transition_workflow_status` (`status.py` lines 65-99): checks
`new_status` against `VALID_TRANSITIONS.get(workflow.status, [])`, fails
without mutation when not allowed, otherwise overwrites `workflow.status`
and returns the refreshed snapshot.  Returns (post-state, response). -/
def transition_workflow_status (w : Workflow) (new_status : String) :
    Workflow × TransitionResult :=
  let allowed := VALID_TRANSITIONS w.status
  if new_status ∈ allowed then
    let updated : Workflow := { w with status := new_status }
    (updated,
      .success updated.status (labelD updated.status) (colorD updated.status)
        (VALID_TRANSITIONS updated.status))
  else
    (w,
      .failure
        ("不允许从 " ++ pyStrOpt (STATUS_LABELS w.status) ++ " 转换到 " ++
          pyStrOpt (STATUS_LABELS new_status))
        allowed)

/-- The response dictionary of `advance_workflow_status` /
`rollback_workflow_status`: the failure payload (`success: False`, `error`,
`status`) or the success payload (`success: True`, `previous_status`,
`status`, `label`, `color`). -/
inductive StepResult where
  | failure (error : String) (status : String)
  | success (previous_status : String) (status : String) (label : String)
      (color : String)
  deriving DecidableEq

/-- The `success` boolean of the advance/rollback response dictionary. -/
def StepResult.isSuccess : StepResult → Bool
  | .failure _ _ => false
  | .success _ _ _ _ => true

/-- The `next_status_map` dictionary local to `advance_workflow_status`
(`status.py` lines 116-122), as `dict.get` (no default). -/
def next_status_map (s : String) : Option String :=
  if s = "draft" then some "worker_done"
  else if s = "worker_done" then some "expert_done"
  else if s = "expert_done" then some "analyzed"
  else if s = "analyzed" then some "confirmed"
  else if s = "confirmed" then some "delivered"
  else none

/-- The `prev_status_map` dictionary local to `rollback_workflow_status`
(`status.py` lines 161-167), as `dict.get` (no default). -/
def prev_status_map (s : String) : Option String :=
  if s = "worker_done" then some "draft"
  else if s = "expert_done" then some "worker_done"
  else if s = "analyzed" then some "expert_done"
  else if s = "confirmed" then some "analyzed"
  else if s = "delivered" then some "confirmed"
  else none

/-- Embeds `advance_workflow_status` (`status.py` lines 102-144): looks up
the current status in `next_status_map`; `None` (falsy) means the terminal
failure `已是最终状态` with no mutation, otherwise the status is overwritten
with the successor.  Returns (post-state, response). -/
def advance_workflow_status (w : Workflow) : Workflow × StepResult :=
  let current := w.status
  match next_status_map current with
  | none => (w, .failure "已是最终状态" current)
  | some next =>
      let updated : Workflow := { w with status := next }
      (updated,
        .success current updated.status (labelD updated.status)
          (colorD updated.status))

/-- Embeds `rollback_workflow_status` (`status.py` lines 147-189): looks up
the current status in `prev_status_map`; `None` (falsy) means the initial
failure `已是初始状态` with no mutation, otherwise the status is overwritten
with the predecessor.  Returns (post-state, response). -/
def rollback_workflow_status (w : Workflow) : Workflow × StepResult :=
  let current := w.status
  match prev_status_map current with
  | none => (w, .failure "已是初始状态" current)
  | some prev =>
      let updated : Workflow := { w with status := prev }
      (updated,
        .success current updated.status (labelD updated.status)
          (colorD updated.status))

end Status

namespace Protocol

/-- The `Example` row as far as `ProtocolService` reads it
(`backend/app/models/workflow.py`): `content` and `label` are non-null
columns, `description` is nullable. -/
structure Example where
  content : String
  label : String
  description : Option String
  deriving DecidableEq

/-- The `WorkflowStep` row as far as the projected claims read it
(`backend/app/models/workflow.py`): the nullable context / extraction /
logic columns and the owned `examples` relationship (a list). -/
structure WorkflowStep where
  context_type : Option String
  context_image_url : Option String
  context_text_content : Option String
  context_voice_transcript : Option String
  context_description : Option String
  extraction_keywords : Option (List String)
  logic_strategy : Option String
  logic_rule_expression : Option String
  logic_evaluation_prompt : Option String
  examples : List Example
  deriving DecidableEq

/-- Wire schema `ProtocolFewShotExample` (`backend/app/schemas/protocol.py`):
all three fields are plain strings. -/
structure ProtocolFewShotExample where
  content : String
  label : String
  description : String
  deriving DecidableEq

/-- Wire schema `ProtocolLogicConfig`. -/
structure ProtocolLogicConfig where
  logic_strategy : String
  rule_expression : Option String
  few_shot_examples : Option (List ProtocolFewShotExample)
  evaluation_prompt : Option String
  deriving DecidableEq

/-- Wire schema `ProtocolInputSpec`. -/
structure ProtocolInputSpec where
  data_source : String
  target_section : String
  context_description : String
  deriving DecidableEq

/-- Wire schema `ProtocolOutputField`. -/
structure ProtocolOutputField where
  name : String
  type : String
  deriving DecidableEq

/-- Wire schema `ProtocolOutputSchema`. -/
structure ProtocolOutputSchema where
  fields : List ProtocolOutputField
  deriving DecidableEq

/-- The `LOGIC_STRATEGY_MAPPING` dictionary of `protocol.py` (lines 28-31)
as `dict.get` (no default). -/
def LOGIC_STRATEGY_MAPPING (s : String) : Option String :=
  if s = "rule_based" then some "RULE_BASED"
  else if s = "few_shot" then some "SEMANTIC_SIMILARITY"
  else none

/-- Embeds `map_logic_strategy_to_protocol` (`protocol.py` lines 39-50):
`None` maps to the default `"RULE_BASED"`; otherwise
`LOGIC_STRATEGY_MAPPING.get(v, v.upper())`. -/
def map_logic_strategy_to_protocol : Option String → String
  | none => "RULE_BASED"
  | some v => (LOGIC_STRATEGY_MAPPING v).getD (pyUpper v)

/-- Embeds `ProtocolService._convert_example_to_protocol`
(`protocol.py` lines 225-238): passes `content` and `label` through and
replaces a falsy `description` (`None` via `or ""`) with the empty string. -/
def convert_example_to_protocol (e : Example) : ProtocolFewShotExample :=
  { content := e.content
    label := e.label
    description := e.description.getD "" }

/-- Embeds `ProtocolService._build_logic_config` (`protocol.py` lines
198-223): maps the strategy, and populates `few_shot_examples` exactly when
`step.logic_strategy == "few_shot"` and `step.examples` is truthy
(non-empty), otherwise leaves it `None`. -/
def build_logic_config (step : WorkflowStep) : ProtocolLogicConfig :=
  let logic_strategy := map_logic_strategy_to_protocol step.logic_strategy
  let few_shot_examples :=
    if step.logic_strategy = some "few_shot" ∧ step.examples ≠ [] then
      some (step.examples.map convert_example_to_protocol)
    else none
  { logic_strategy := logic_strategy
    rule_expression := step.logic_rule_expression
    few_shot_examples := few_shot_examples
    evaluation_prompt := step.logic_evaluation_prompt }

/-- Embeds `ProtocolService._build_input_spec` (`protocol.py` lines
163-196): `data_source` is `context_type or "unknown"`; `target_section`
is the first truthy of image url, text content truncated to 200 characters,
voice transcript truncated to 200 characters, else `""`;
`context_description` is `context_description or ""`, and when
`extraction_keywords` is truthy the f-string
`" [Keywords: k1, k2, ...]"` is appended and the whole result `.strip()`ed
(modelled by `pyStrip`). -/
def build_input_spec (step : WorkflowStep) : ProtocolInputSpec :=
  let data_source := pyOrStr step.context_type "unknown"
  let target_section :=
    if pyTruthyStr step.context_image_url then step.context_image_url.getD ""
    else if pyTruthyStr step.context_text_content then
      pyTake (step.context_text_content.getD "") 200
    else if pyTruthyStr step.context_voice_transcript then
      pyTake (step.context_voice_transcript.getD "") 200
    else ""
  let base := step.context_description.getD ""
  let context_description :=
    if pyTruthyList step.extraction_keywords then
      pyStrip (base ++ " [Keywords: " ++
        String.intercalate ", " (step.extraction_keywords.getD []) ++ "]")
    else base
  { data_source := data_source
    target_section := target_section
    context_description := context_description }

/-- Embeds `ProtocolService._build_output_schema` (`protocol.py` lines
280-305): one `{name: keyword, type: "string"}` field per extraction
keyword (the truthiness guard makes `None` and `[]` behave alike), then the
unconditional trailing `{name: "judgment_result", type: "string"}`. -/
def build_output_schema (step : WorkflowStep) : ProtocolOutputSchema :=
  let keywordFields :=
    if pyTruthyList step.extraction_keywords then
      (step.extraction_keywords.getD []).map
        (fun keyword => ProtocolOutputField.mk keyword "string")
    else []
  ⟨keywordFields ++ [ProtocolOutputField.mk "judgment_result" "string"]⟩

/-- Spec-side helper for claim C7: the first non-empty string in a list,
else the empty string. -/
def firstNonEmpty (l : List String) : String :=
  (l.find? (fun s => !s.isEmpty)).getD ""

/-- The `context_description` formula exactly as claim C7 states it: the
stored description (or empty) with the keyword suffix appended verbatim and
no stripping.  To be compared with `build_input_spec`, which additionally
applies `.strip()` to the concatenation. -/
def claimed_context_description (step : WorkflowStep) : String :=
  let base := step.context_description.getD ""
  if pyTruthyList step.extraction_keywords then
    base ++ " [Keywords: " ++
      String.intercalate ", " (step.extraction_keywords.getD []) ++ "]"
  else base

/-- A step with no stored description and one extraction keyword
(all other columns null, no examples). -/
def stripCexStep : WorkflowStep :=
  { context_type := none
    context_image_url := none
    context_text_content := none
    context_voice_transcript := none
    context_description := none
    extraction_keywords := some ["k1"]
    logic_strategy := none
    logic_rule_expression := none
    logic_evaluation_prompt := none
    examples := [] }

/-- A step using the few-shot strategy with a single PASS example. -/
def fewShotStep : WorkflowStep :=
  { context_type := none
    context_image_url := none
    context_text_content := none
    context_voice_transcript := none
    context_description := none
    extraction_keywords := none
    logic_strategy := some "few_shot"
    logic_rule_expression := none
    logic_evaluation_prompt := none
    examples := [{ content := "looks good", label := "PASS", description := none }] }

/-- A step whose extraction keywords are `["color", "size"]`. -/
def colorSizeStep : WorkflowStep :=
  { context_type := none
    context_image_url := none
    context_text_content := none
    context_voice_transcript := none
    context_description := none
    extraction_keywords := some ["color", "size"]
    logic_strategy := none
    logic_rule_expression := none
    logic_evaluation_prompt := none
    examples := [] }

end Protocol

open Status Protocol

/-- Helper: unfold membership in the six-element lifecycle list into a
disjunction of equalities. -/
theorem mem_lifecycle_states_iff (s : String) :
    s ∈ lifecycle_states ↔
      s = "draft" ∨ s = "worker_done" ∨ s = "expert_done" ∨ s = "analyzed" ∨
        s = "confirmed" ∨ s = "delivered" := by
  simp [lifecycle_states]

/-- Helper: a successful transition lands inside any superset of the
current allowed-transitions row. -/
theorem transition_target_mem (w : Status.Workflow) (T : String)
    (hsub : ∀ x ∈ VALID_TRANSITIONS w.status, x ∈ lifecycle_states) :
    (transition_workflow_status w T).2.isSuccess = true →
      (transition_workflow_status w T).1.status ∈ lifecycle_states := by
  by_cases hT : T ∈ VALID_TRANSITIONS w.status
  · intro _
    simpa [transition_workflow_status, hT] using hsub T hT
  · simp [transition_workflow_status, hT, TransitionResult.isSuccess]

/-- C1: for a workflow in one of the six lifecycle states, the transition
succeeds iff the requested status is in the `VALID_TRANSITIONS` row of the
current status; on success the post-state status equals the request, and on
failure the workflow is unchanged and the response carries the
allowed-transitions row of the current status. -/
theorem transition_workflow_status_correct (w : Status.Workflow) (T : String)
    (h : w.status ∈ lifecycle_states) :
    ((transition_workflow_status w T).2.isSuccess = true ↔
      T ∈ VALID_TRANSITIONS w.status)
    ∧ ((transition_workflow_status w T).2.isSuccess = true →
      (transition_workflow_status w T).1.status = T)
    ∧ ((transition_workflow_status w T).2.isSuccess = false →
      (transition_workflow_status w T).1 = w ∧
        (transition_workflow_status w T).2.allowed = VALID_TRANSITIONS w.status) := by
  by_cases hT : T ∈ VALID_TRANSITIONS w.status <;>
    simp [transition_workflow_status, hT, TransitionResult.isSuccess,
      TransitionResult.allowed]

/-- Witness for C1: the draft workflow may move to `worker_done`. -/
theorem transition_workflow_status_correct_witness :
    "draft" ∈ lifecycle_states
    ∧ (((transition_workflow_status ⟨"draft"⟩ "worker_done").2.isSuccess = true ↔
        "worker_done" ∈ VALID_TRANSITIONS "draft")
      ∧ ((transition_workflow_status ⟨"draft"⟩ "worker_done").2.isSuccess = true →
        (transition_workflow_status ⟨"draft"⟩ "worker_done").1.status = "worker_done")
      ∧ ((transition_workflow_status ⟨"draft"⟩ "worker_done").2.isSuccess = false →
        (transition_workflow_status ⟨"draft"⟩ "worker_done").1 = ⟨"draft"⟩ ∧
          (transition_workflow_status ⟨"draft"⟩ "worker_done").2.allowed =
            VALID_TRANSITIONS "draft")) :=
  ⟨by decide, transition_workflow_status_correct ⟨"draft"⟩ "worker_done" (by decide)⟩

/-- C2: advancing from `delivered` fails with the terminal-state error and
no mutation; from any other lifecycle state it succeeds, moving to the
forward-table successor and reporting the previous status.  The first
conjunct pins the forward table to the chain
draft→worker_done→expert_done→analyzed→confirmed→delivered. -/
theorem advance_workflow_status_correct (w : Status.Workflow)
    (h : w.status ∈ lifecycle_states) :
    (next_status_map "draft" = some "worker_done"
      ∧ next_status_map "worker_done" = some "expert_done"
      ∧ next_status_map "expert_done" = some "analyzed"
      ∧ next_status_map "analyzed" = some "confirmed"
      ∧ next_status_map "confirmed" = some "delivered"
      ∧ next_status_map "delivered" = none)
    ∧ (w.status = "delivered" →
      advance_workflow_status w = (w, StepResult.failure "已是最终状态" "delivered"))
    ∧ (w.status ≠ "delivered" →
      ∃ n, next_status_map w.status = some n
        ∧ advance_workflow_status w =
          (⟨n⟩, StepResult.success w.status n (labelD n) (colorD n))) := by
  obtain ⟨s⟩ := w
  rw [mem_lifecycle_states_iff] at h
  rcases h with h | h | h | h | h | h <;> subst h
  · exact ⟨by decide, fun hs => absurd hs (by decide),
      fun _ => ⟨"worker_done", by decide, by decide⟩⟩
  · exact ⟨by decide, fun hs => absurd hs (by decide),
      fun _ => ⟨"expert_done", by decide, by decide⟩⟩
  · exact ⟨by decide, fun hs => absurd hs (by decide),
      fun _ => ⟨"analyzed", by decide, by decide⟩⟩
  · exact ⟨by decide, fun hs => absurd hs (by decide),
      fun _ => ⟨"confirmed", by decide, by decide⟩⟩
  · exact ⟨by decide, fun hs => absurd hs (by decide),
      fun _ => ⟨"delivered", by decide, by decide⟩⟩
  · exact ⟨by decide, fun _ => by decide, fun hn => absurd rfl hn⟩

/-- Witness for C2: a draft workflow advances to `worker_done`. -/
theorem advance_workflow_status_correct_witness :
    "draft" ∈ lifecycle_states
    ∧ ((next_status_map "draft" = some "worker_done"
        ∧ next_status_map "worker_done" = some "expert_done"
        ∧ next_status_map "expert_done" = some "analyzed"
        ∧ next_status_map "analyzed" = some "confirmed"
        ∧ next_status_map "confirmed" = some "delivered"
        ∧ next_status_map "delivered" = none)
      ∧ ((Status.Workflow.mk "draft").status = "delivered" →
        advance_workflow_status ⟨"draft"⟩ =
          (⟨"draft"⟩, StepResult.failure "已是最终状态" "delivered"))
      ∧ ((Status.Workflow.mk "draft").status ≠ "delivered" →
        ∃ n, next_status_map (Status.Workflow.mk "draft").status = some n
          ∧ advance_workflow_status ⟨"draft"⟩ =
            (⟨n⟩, StepResult.success (Status.Workflow.mk "draft").status n
              (labelD n) (colorD n)))) :=
  ⟨by decide, advance_workflow_status_correct ⟨"draft"⟩ (by decide)⟩

/-- C3: rolling back from `draft` fails with the initial-state error and no
mutation; from any other lifecycle state it succeeds, moving to the unique
state whose forward successor is the current one (the backward table is the
inverse of the forward table). -/
theorem rollback_workflow_status_correct (w : Status.Workflow)
    (h : w.status ∈ lifecycle_states) :
    (w.status = "draft" →
      rollback_workflow_status w = (w, StepResult.failure "已是初始状态" "draft"))
    ∧ (w.status ≠ "draft" →
      ∃ p, prev_status_map w.status = some p
        ∧ next_status_map p = some w.status
        ∧ rollback_workflow_status w =
          (⟨p⟩, StepResult.success w.status p (labelD p) (colorD p))) := by
  obtain ⟨s⟩ := w
  rw [mem_lifecycle_states_iff] at h
  rcases h with h | h | h | h | h | h <;> subst h
  · exact ⟨fun _ => by decide, fun hn => absurd rfl hn⟩
  · exact ⟨fun hs => absurd hs (by decide),
      fun _ => ⟨"draft", by decide, by decide, by decide⟩⟩
  · exact ⟨fun hs => absurd hs (by decide),
      fun _ => ⟨"worker_done", by decide, by decide, by decide⟩⟩
  · exact ⟨fun hs => absurd hs (by decide),
      fun _ => ⟨"expert_done", by decide, by decide, by decide⟩⟩
  · exact ⟨fun hs => absurd hs (by decide),
      fun _ => ⟨"analyzed", by decide, by decide, by decide⟩⟩
  · exact ⟨fun hs => absurd hs (by decide),
      fun _ => ⟨"confirmed", by decide, by decide, by decide⟩⟩

/-- Witness for C3: a delivered workflow rolls back to `confirmed`. -/
theorem rollback_workflow_status_correct_witness :
    "delivered" ∈ lifecycle_states
    ∧ (((Status.Workflow.mk "delivered").status = "draft" →
        rollback_workflow_status ⟨"delivered"⟩ =
          (⟨"delivered"⟩, StepResult.failure "已是初始状态" "draft"))
      ∧ ((Status.Workflow.mk "delivered").status ≠ "draft" →
        ∃ p, prev_status_map (Status.Workflow.mk "delivered").status = some p
          ∧ next_status_map p = some (Status.Workflow.mk "delivered").status
          ∧ rollback_workflow_status ⟨"delivered"⟩ =
            (⟨p⟩, StepResult.success (Status.Workflow.mk "delivered").status p
              (labelD p) (colorD p)))) :=
  ⟨by decide, rollback_workflow_status_correct ⟨"delivered"⟩ (by decide)⟩

/-- C4: from any lifecycle state other than `draft` and `delivered`,
advance-then-rollback and rollback-then-advance both restore the original
status. -/
theorem advance_rollback_roundtrip (w : Status.Workflow)
    (h : w.status ∈ lifecycle_states)
    (h1 : w.status ≠ "draft") (h2 : w.status ≠ "delivered") :
    (rollback_workflow_status (advance_workflow_status w).1).1.status = w.status
    ∧ (advance_workflow_status (rollback_workflow_status w).1).1.status = w.status := by
  obtain ⟨s⟩ := w
  rw [mem_lifecycle_states_iff] at h
  rcases h with h | h | h | h | h | h <;> subst h
  · exact absurd rfl h1
  · exact ⟨by decide, by decide⟩
  · exact ⟨by decide, by decide⟩
  · exact ⟨by decide, by decide⟩
  · exact ⟨by decide, by decide⟩
  · exact absurd rfl h2

/-- Witness for C4: the round trips at `worker_done`. -/
theorem advance_rollback_roundtrip_witness :
    "worker_done" ∈ lifecycle_states
    ∧ "worker_done" ≠ "draft"
    ∧ "worker_done" ≠ "delivered"
    ∧ ((rollback_workflow_status (advance_workflow_status ⟨"worker_done"⟩).1).1.status =
        "worker_done"
      ∧ (advance_workflow_status (rollback_workflow_status ⟨"worker_done"⟩).1).1.status =
        "worker_done") :=
  ⟨by decide, by decide, by decide,
    advance_rollback_roundtrip ⟨"worker_done"⟩ (by decide) (by decide) (by decide)⟩

/-- C9: starting inside the six-value lifecycle set, every successful
transition, advance, or rollback lands back inside the set. -/
theorem status_ops_preserve_lifecycle (w : Status.Workflow) (T : String)
    (h : w.status ∈ lifecycle_states) :
    ((transition_workflow_status w T).2.isSuccess = true →
      (transition_workflow_status w T).1.status ∈ lifecycle_states)
    ∧ ((advance_workflow_status w).2.isSuccess = true →
      (advance_workflow_status w).1.status ∈ lifecycle_states)
    ∧ ((rollback_workflow_status w).2.isSuccess = true →
      (rollback_workflow_status w).1.status ∈ lifecycle_states) := by
  obtain ⟨s⟩ := w
  rw [mem_lifecycle_states_iff] at h
  rcases h with h | h | h | h | h | h <;> subst h <;>
    exact ⟨transition_target_mem _ T (by decide), by decide, by decide⟩

/-- Witness for C9 at the `confirmed` state with request `delivered`. -/
theorem status_ops_preserve_lifecycle_witness :
    "confirmed" ∈ lifecycle_states
    ∧ (((transition_workflow_status ⟨"confirmed"⟩ "delivered").2.isSuccess = true →
        (transition_workflow_status ⟨"confirmed"⟩ "delivered").1.status ∈
          lifecycle_states)
      ∧ ((advance_workflow_status ⟨"confirmed"⟩).2.isSuccess = true →
        (advance_workflow_status ⟨"confirmed"⟩).1.status ∈ lifecycle_states)
      ∧ ((rollback_workflow_status ⟨"confirmed"⟩).2.isSuccess = true →
        (rollback_workflow_status ⟨"confirmed"⟩).1.status ∈ lifecycle_states)) :=
  ⟨by decide, status_ops_preserve_lifecycle ⟨"confirmed"⟩ "delivered" (by decide)⟩

/-- Counterexample for C10: the failure payload echoes the current status,
so the response for an invalid status differs from the `delivered` /
`draft` responses — they are not "the same failure". -/
theorem invalid_status_response_cex :
    (advance_workflow_status ⟨"archived"⟩).2 ≠
      (advance_workflow_status ⟨"delivered"⟩).2
    ∧ (rollback_workflow_status ⟨"archived"⟩).2 ≠
      (rollback_workflow_status ⟨"draft"⟩).2 := by
  constructor <;> decide

/-- C10 (amended): for a status outside the six lifecycle values, advance
fails with the same terminal-state error message as for `delivered` and
rollback with the same initial-state error message as for `draft`, both
without mutation; but the `status` entry of the failure payload echoes the
actual (invalid) status, so the full responses differ from the
`delivered` / `draft` ones. -/
theorem invalid_status_behavior (w : Status.Workflow)
    (h : w.status ∉ lifecycle_states) :
    advance_workflow_status w = (w, StepResult.failure "已是最终状态" w.status)
    ∧ rollback_workflow_status w = (w, StepResult.failure "已是初始状态" w.status) := by
  obtain ⟨s⟩ := w
  rw [mem_lifecycle_states_iff] at h
  push_neg at h
  obtain ⟨h1, h2, h3, h4, h5, h6⟩ := h
  constructor <;>
    simp [advance_workflow_status, rollback_workflow_status, next_status_map,
      prev_status_map, h1, h2, h3, h4, h5, h6]

/-- Helper: Python truthiness of an optional string, phrased through the
`or ""` default. -/
theorem pyTruthyStr_eq_not_isEmpty (o : Option String) :
    pyTruthyStr o = !(o.getD "").isEmpty := by
  cases o <;> rfl

/-- Helper: truncation to the first 200 characters preserves
(non-)emptiness. -/
theorem pyTake_200_isEmpty (s : String) : (pyTake s 200).isEmpty = s.isEmpty := by
  by_cases h : s = ""
  · subst h; rfl
  · have hs : s.isEmpty = false := by
      rw [Bool.eq_false_iff]
      intro hc
      exact h ((String.isEmpty_iff s).mp hc)
    have ht : (pyTake s 200).isEmpty = false := by
      rw [Bool.eq_false_iff]
      intro hc
      have h2 : pyTake s 200 = "" := (String.isEmpty_iff _).mp hc
      rw [pyTake, String.ext_iff] at h2
      have h3 : s.data.take 200 = [] := h2
      rcases List.take_eq_nil_iff.mp h3 with h4 | h4
      · exact absurd h4 (by decide)
      · exact h (String.ext h4)
    rw [hs, ht]

/-- Counterexample for C5: an internal strategy value outside the two-entry
dictionary is uppercased and passed through, not defaulted to
`"RULE_BASED"`. -/
theorem map_logic_strategy_unmapped_cex :
    map_logic_strategy_to_protocol (some "custom") = "CUSTOM"
    ∧ map_logic_strategy_to_protocol (some "custom") ≠ "RULE_BASED" := by
  constructor <;> decide

/-- C5 (amended): `None` and the two dictionary entries map as the claim
says, but any other internal string is uppercased and passed through
(`dict.get` falls back to `internal_value.upper()`, not to the default). -/
theorem map_logic_strategy_amended (s : String)
    (h1 : s ≠ "rule_based") (h2 : s ≠ "few_shot") :
    map_logic_strategy_to_protocol none = "RULE_BASED"
    ∧ map_logic_strategy_to_protocol (some "rule_based") = "RULE_BASED"
    ∧ map_logic_strategy_to_protocol (some "few_shot") = "SEMANTIC_SIMILARITY"
    ∧ map_logic_strategy_to_protocol (some s) = pyUpper s := by
  refine ⟨rfl, rfl, rfl, ?_⟩
  simp [map_logic_strategy_to_protocol, LOGIC_STRATEGY_MAPPING, h1, h2]

/-- Witness for the amended C5 at the unmapped string `"custom"`. -/
theorem map_logic_strategy_amended_witness :
    "custom" ≠ "rule_based"
    ∧ "custom" ≠ "few_shot"
    ∧ (map_logic_strategy_to_protocol none = "RULE_BASED"
      ∧ map_logic_strategy_to_protocol (some "rule_based") = "RULE_BASED"
      ∧ map_logic_strategy_to_protocol (some "few_shot") = "SEMANTIC_SIMILARITY"
      ∧ map_logic_strategy_to_protocol (some "custom") = pyUpper "custom") :=
  ⟨by decide, by decide,
    map_logic_strategy_amended "custom" (by decide) (by decide)⟩

/-- C6: `few_shot_examples` is a non-null list exactly when the internal
strategy is `few_shot` and the step has at least one Example; in that case
it is the in-order image of the examples under
content / label / description-or-empty, and otherwise it is null. -/
theorem build_logic_config_few_shot_correct (step : WorkflowStep) :
    ((build_logic_config step).few_shot_examples ≠ none ↔
      step.logic_strategy = some "few_shot" ∧ step.examples ≠ [])
    ∧ (step.logic_strategy = some "few_shot" → step.examples ≠ [] →
      (build_logic_config step).few_shot_examples =
        some (step.examples.map (fun e =>
          ProtocolFewShotExample.mk e.content e.label (e.description.getD ""))))
    ∧ (¬(step.logic_strategy = some "few_shot" ∧ step.examples ≠ []) →
      (build_logic_config step).few_shot_examples = none) := by
  by_cases h1 : step.logic_strategy = some "few_shot" <;>
  by_cases h2 : step.examples = [] <;>
    simp [build_logic_config, convert_example_to_protocol, h1, h2]

/-- Witness for C6 at a few-shot step with one PASS example. -/
theorem build_logic_config_few_shot_correct_witness :
    (((build_logic_config fewShotStep).few_shot_examples ≠ none ↔
      fewShotStep.logic_strategy = some "few_shot" ∧ fewShotStep.examples ≠ [])
    ∧ (fewShotStep.logic_strategy = some "few_shot" → fewShotStep.examples ≠ [] →
      (build_logic_config fewShotStep).few_shot_examples =
        some (fewShotStep.examples.map (fun e =>
          ProtocolFewShotExample.mk e.content e.label (e.description.getD ""))))
    ∧ (¬(fewShotStep.logic_strategy = some "few_shot" ∧ fewShotStep.examples ≠ []) →
      (build_logic_config fewShotStep).few_shot_examples = none)) :=
  build_logic_config_few_shot_correct fewShotStep

/-- Counterexample for C7: with no stored description and keywords
`["k1"]`, the `.strip()` in the code drops the leading space, so the projected
description is `"[Keywords: k1]"` while the formula of the claim yields
`" [Keywords: k1]"`. -/
theorem build_input_spec_strip_cex :
    (build_input_spec stripCexStep).context_description = "[Keywords: k1]"
    ∧ claimed_context_description stripCexStep = " [Keywords: k1]"
    ∧ (build_input_spec stripCexStep).context_description ≠
      claimed_context_description stripCexStep := by
  refine ⟨rfl, rfl, by decide⟩

/-- C7 (amended): `target_section` is the first non-empty of the image url,
the first 200 characters of the text content, and the first 200 characters
of the voice transcript (else empty); `context_description` is the
description-plus-keyword-suffix formula of the claim, except that when keywords
exist the concatenation is additionally stripped of surrounding
whitespace. -/
theorem build_input_spec_amended (step : WorkflowStep) :
    (build_input_spec step).target_section =
      firstNonEmpty
        [step.context_image_url.getD "",
          pyTake (step.context_text_content.getD "") 200,
          pyTake (step.context_voice_transcript.getD "") 200]
    ∧ (build_input_spec step).context_description =
      (if pyTruthyList step.extraction_keywords then
        pyStrip (claimed_context_description step)
      else step.context_description.getD "") := by
  constructor
  · simp only [build_input_spec, firstNonEmpty, pyTruthyStr_eq_not_isEmpty]
    cases h1 : (step.context_image_url.getD "").isEmpty <;>
    cases h2 : (step.context_text_content.getD "").isEmpty <;>
    cases h3 : (step.context_voice_transcript.getD "").isEmpty <;>
      simp [List.find?, h1, h2, h3, pyTake_200_isEmpty]
  · cases hk : pyTruthyList step.extraction_keywords <;>
      simp [build_input_spec, claimed_context_description, hk]

/-- C8: the output schema is one string-typed field per extraction keyword
in stored order followed by the synthetic `judgment_result` field; in
particular `["color", "size"]` yields exactly the three-field list of the
claim. -/
theorem build_output_schema_correct (step : WorkflowStep) :
    (build_output_schema step).fields =
      (step.extraction_keywords.getD []).map
        (fun keyword => ProtocolOutputField.mk keyword "string")
      ++ [ProtocolOutputField.mk "judgment_result" "string"]
    ∧ (build_output_schema colorSizeStep).fields =
      [ProtocolOutputField.mk "color" "string",
        ProtocolOutputField.mk "size" "string",
        ProtocolOutputField.mk "judgment_result" "string"] := by
  constructor
  · rcases hk : step.extraction_keywords with _ | l
    · simp [build_output_schema, pyTruthyList, hk]
    · cases l <;> simp [build_output_schema, pyTruthyList, hk]
  · rfl

/-- Witness for the amended C10 at the invalid status `"archived"`. -/
theorem invalid_status_behavior_witness :
    "archived" ∉ lifecycle_states
    ∧ (advance_workflow_status ⟨"archived"⟩ =
        (⟨"archived"⟩, StepResult.failure "已是最终状态" "archived")
      ∧ rollback_workflow_status ⟨"archived"⟩ =
        (⟨"archived"⟩, StepResult.failure "已是初始状态" "archived")) :=
  ⟨by decide, invalid_status_behavior ⟨"archived"⟩ (by decide)⟩

end LogicWeaver
